import Mathlib

/-!
# Verification of the `simple-plain-coder` interactive session controller

A shallow embedding, in Lean 4, of the session-controller core of the
`simple-plain-coder` repository: the read-eval-print loop of
`app.py::run_application`, together with the pure helpers it calls in
`command_core.py`, `config_core.py`, `llm_core.py`, `prompt_core.py`, the
stateful config accessors of `config_io.py` (and the `config_utils.py`
duplicate reached through `/list`), the client factory
`llm_client.py::initialize_llm_client` and the delta streamer
`llm_client.py::run_llm`.

Modelling conventions:
* Python dicts appear as insertion-ordered association lists.
* TOML / config scalar values appear as `CVal` (strings, integers,
  booleans); Python truthiness is `CVal.truthy`.
* Python `str.strip()` is `pyStrip` (ASCII whitespace, which is what the
  repository's inputs use); `str.lower()` is `String.toLower`.
* `print` calls are logged in an output trace (`out` fields), and calls to
  the client factory are counted by a ghost counter (`rebuilds`) so that
  "exactly one rebuild" claims are statable.
* Python exceptions are `Except String` errors; an uncaught exception in
  the loop is the `StepResult.fatal` outcome.
-/

/-- Message roles recorded in the conversation history (`app.py` only ever
appends `'user'` and `'assistant'` roles). -/
inductive Role where
  | user
  | assistant
deriving DecidableEq, Repr

/-- A history entry `{'role': ..., 'content': ...}` as appended by
`app.py::run_application`. -/
structure Message where
  role : Role
  content : String
deriving DecidableEq, Repr

/-- A scalar configuration value as read from `coders.toml` (string,
integer or boolean). -/
inductive CVal where
  | str (s : String)
  | int (n : Int)
  | bool (b : Bool)
deriving DecidableEq, Repr

/-- Python truthiness of a config value (`if not model_name`, `if system_prompt`). -/
def CVal.truthy : CVal → Bool
  | .str s => s ≠ ""
  | .int n => n ≠ 0
  | .bool b => b

/-- Python `v != ""` for a config value: only the empty string is equal to `""`. -/
def CVal.neEmptyStr (v : CVal) : Bool := v ≠ CVal.str ""

/-- A coder profile section of `coders.toml`: a Python dict from option
names to scalar values, as an insertion-ordered association list. -/
abbrev CoderConfig := List (String × CVal)

/-- The whole `coders.toml` content: dict from coder ids to their sections,
in file (= load) order. -/
abbrev Coders := List (String × CoderConfig)

/-! ## Python `str.strip()` (`pyStrip`) over the underlying character list -/

/-- Python `str.strip()` on the character list: drop the leading and
trailing whitespace runs. -/
def pyStripList (l : List Char) : List Char :=
  (l.dropWhile Char.isWhitespace).rdropWhile Char.isWhitespace

/-- Python `str.strip()` as used by `prompt_io.py::get_user_input` and the
`@`-switch branch of `app.py::run_application`. -/
def pyStrip (s : String) : String := ⟨pyStripList s.data⟩

theorem dropWhile_eq_self_left_stable {p : Char → Bool} {s l : List Char}
    (hp : s <+: l) (hl : l.dropWhile p = l) : s.dropWhile p = s := by
  rw [List.dropWhile_eq_self_iff] at hl ⊢
  intro hs
  rcases hp with ⟨u, rfl⟩
  have hlen : 0 < (s ++ u).length := by simp; omega
  have hg : (s ++ u).get ⟨0, hlen⟩ = s.get ⟨0, hs⟩ := by
    simp [List.getElem_append_left hs]
  have := hl hlen
  rw [hg] at this
  exact this

theorem pyStripList_idem (l : List Char) :
    pyStripList (pyStripList l) = pyStripList l := by
  unfold pyStripList
  have h1 : (l.dropWhile Char.isWhitespace).dropWhile Char.isWhitespace
      = l.dropWhile Char.isWhitespace := List.dropWhile_idempotent _ l
  have h2 : ((l.dropWhile Char.isWhitespace).rdropWhile Char.isWhitespace).dropWhile
      Char.isWhitespace = (l.dropWhile Char.isWhitespace).rdropWhile Char.isWhitespace :=
    dropWhile_eq_self_left_stable ( List.rdropWhile_prefix _ _) h1
  rw [h2, List.rdropWhile_idempotent]

/-- Stripping with `pyStrip` is idempotent: a stripped line has no surrounding whitespace. -/
theorem pyStrip_idem (s : String) : pyStrip (pyStrip s) = pyStrip s := by
  unfold pyStrip
  simp [pyStripList_idem]

/-- Python `str.lower()` (ASCII case folding, which covers this
repository's command words and profile names). -/
def pyLower (s : String) : String := ⟨s.data.map Char.toLower⟩

/-! ## `config_core.py` — pure config helpers -/

/-- Model of `config_core.py::extract_available_coders` (and the identical loop in
`config_utils.py::get_available_coders`): list of `(coder id, display name)`
in load order, the display name defaulting to the id.  Display names are
strings in this application (they are compared with `str.lower`); a
non-string `name` value falls back to the id in this model. -/
def extract_available_coders (coders_data : Coders) : List (String × String) :=
  coders_data.map (fun p =>
    (p.1, match p.2.lookup "name" with
          | some (CVal.str n) => n
          | _ => p.1))

/-- Model of `config_core.py::find_default_coder_id`: the first coder id in load
order, `none` for an empty config. -/
def find_default_coder_id (coders_data : Coders) : Option String :=
  coders_data.head?.map (·.1)

/-! ## `config_io.py` — module state (`_current_coder_id`) and accessors -/

/-- The state `config_io.py` works over: its module-global
`_current_coder_id` plus the on-disk content of `coders.toml` (reloaded by
`load_coders` on each access; never written by the accessors modelled
here). -/
structure ConfigState where
  currentCoderId : Option String
  disk : Coders
deriving DecidableEq, Repr

/-- Model of `config_io.py::load_coders`: read `coders.toml`. -/
def load_coders (s : ConfigState) : Coders := s.disk

/-- Model of `config_io.py::get_active_coder_id`: returns the memoized id if set;
otherwise returns `""` for an empty config, or memoizes and returns the
first coder id (`find_default_coder_id`; the `getD ""` is unreachable
because the config is non-empty in that branch). -/
def get_active_coder_id (s : ConfigState) : String × ConfigState :=
  match s.currentCoderId with
  | some id => (id, s)
  | none =>
    let coders := load_coders s
    if coders.isEmpty then ("", s)
    else
      let id := (find_default_coder_id coders).getD ""
      (id, { s with currentCoderId := some id })

/-- Model of `config_io.py::set_active_coder_id`: overwrite the module global. -/
def set_active_coder_id (coder_id : String) (s : ConfigState) : ConfigState :=
  { s with currentCoderId := some coder_id }

/-- Model of `config_io.py::get_available_coders`. -/
def get_available_coders (s : ConfigState) : List (String × String) :=
  extract_available_coders (load_coders s)

/-- Model of `config_io.py::get_llm_config`: the active coder's section, `{}` if the
active id has no section. -/
def get_llm_config (s : ConfigState) : CoderConfig × ConfigState :=
  let coders := load_coders s
  let active := get_active_coder_id s
  (((coders.lookup active.1).getD []), active.2)

/-! ## `llm_core.py` — LLM config preparation -/

/-- The dict built by `llm_core.py::prepare_llm_config` (identical code in
`config_core.py::prepare_llm_config` and inline in
`main.py::initialize_llm_client`): fixed keys `model`, `model_server`,
`api_key`, optional `system` / `template`, and the `options` sub-dict. -/
structure LlmCfg where
  model : CVal
  model_server : CVal
  api_key : CVal
  system : Option CVal
  template : Option CVal
  options : List (String × CVal)
deriving DecidableEq, Repr

/-- The eight sampling keys forwarded by `prepare_llm_config`, in code
order. -/
def samplingKeys : List String :=
  ["temperature", "top_p", "top_k", "num_predict", "max_tokens",
   "repeat_penalty", "presence_penalty", "frequency_penalty"]

/-- The `options[key] = coder_config[key]` guard of `prepare_llm_config`:
the value, when the key is present and not equal to `""`. -/
def optValue (cfg : CoderConfig) (k : String) : Option CVal :=
  match cfg.lookup k with
  | some v => if v.neEmptyStr then some v else none
  | none => none

/-- Model of `llm_core.py::prepare_llm_config`.  The Python version raises
`ValueError` on a falsy `model_name`; `options` is added only when
non-empty, which an association list models by simply being empty. -/
def prepare_llm_config (coder_config : CoderConfig) : Except String LlmCfg :=
  match coder_config.lookup "model_name" with
  | none => Except.error "Model name is not configured"
  | some mn =>
    if mn.truthy = false then Except.error "Model name is not configured"
    else
      Except.ok
        { model := mn
          model_server :=
            (coder_config.lookup "model_server").getD
              (CVal.str "http://localhost:11434/v1")
          api_key := (coder_config.lookup "api_key").getD (CVal.str "EMPTY")
          system :=
            match coder_config.lookup "system_prompt" with
            | some v => if v.truthy then some v else none
            | none => none
          template :=
            match coder_config.lookup "template" with
            | some v => if v.truthy then some v else none
            | none => none
          options := samplingKeys.filterMap
            (fun k => (optValue coder_config k).map (fun v => (k, v))) }

/-- An MCP server configuration (`mcp-servers.yaml`), modelled by its
top-level keys — all `prepare_mcp_tools` inspects. -/
abbrev McpConfig := List String

/-- Model of `llm_core.py::prepare_mcp_tools` (same code in `config_core.py`):
empty tool list unless the config is non-empty and has an `mcpServers`
key. -/
def prepare_mcp_tools (mcp_config : McpConfig) : List McpConfig :=
  if mcp_config.isEmpty ∨ ¬ mcp_config.contains "mcpServers" then []
  else [mcp_config]

/-! ## `llm_client.py` — client factory and streamer -/

/-- The `qwen_agent` `Assistant` as far as this program constructs it: the
`llm` config dict and the tool list. -/
structure Assistant where
  llm : LlmCfg
  function_list : List McpConfig
deriving DecidableEq, Repr

/-- Model of `llm_client.py::initialize_llm_client`: read the active profile's
config (which may lazily memoize the active id, hence the returned
`ConfigState`), raise `ValueError` on a falsy `model_name`, then build the
`Assistant` from `prepare_llm_config` and `prepare_mcp_tools`. -/
def initialize_llm_client (mcp : McpConfig) (s : ConfigState) :
    Except String (Assistant × ConfigState) :=
  let cfg := get_llm_config s
  match cfg.1.lookup "model_name" with
  | none => Except.error "Model name is not configured. Please check your config file."
  | some mn =>
    if mn.truthy = false then
      Except.error "Model name is not configured. Please check your config file."
    else
      match prepare_llm_config cfg.1 with
      | Except.error e => Except.error e
      | Except.ok llm_cfg =>
        Except.ok ({ llm := llm_cfg, function_list := prepare_mcp_tools mcp }, cfg.2)

/-- One `response` snapshot yielded by `bot.run`: a list of messages, the
last of which carries the cumulative content. -/
abbrev Snapshot := List Message

/-- Recursion of `llm_client.py::run_llm` over the snapshots of
`bot.run(messages=messages)`, threading the cumulative `response_text`:
non-empty snapshots whose last content is non-empty and new yield the
suffix `content[len(response_text):]`. -/
def run_llm_go (response_text : String) : List Snapshot → List String
  | [] => []
  | resp :: rest =>
    match resp.getLast? with
    | none => run_llm_go response_text rest
    | some m =>
      let content := m.content
      if content ≠ "" ∧ content ≠ response_text then
        ⟨content.data.drop response_text.length⟩ :: run_llm_go content rest
      else
        run_llm_go response_text rest

/-- Model of `llm_client.py::run_llm`: the fragments (deltas) the generator yields,
in yield order, for a given sequence of `bot.run` snapshots. -/
def run_llm (stream : List Snapshot) : List String := run_llm_go "" stream

/-! ## `config_utils.py` / `main.py` — the duplicate path used by `/list` -/

/-- Model of `config_utils.py::get_active_coder_id`: identical logic to
`config_io.py`, but over `config_utils`' own module global
(`next(iter(coders.keys()))` inlined is `find_default_coder_id`). -/
def cu_get_active_coder_id (disk : Coders) (cu : Option String) :
    String × Option String :=
  match cu with
  | some id => (id, cu)
  | none =>
    if disk.isEmpty then ("", none)
    else
      let id := (find_default_coder_id disk).getD ""
      (id, some id)

/-- Model of `main.py::initialize_llm_client`, reached from
`command_handlers.py::handle_list_command` via `from main import
initialize_llm_client`: reads the active config through `config_utils`'
own global, and builds the same dict as `prepare_llm_config` (the inline
construction in `main.py` is character-for-character the body of
`llm_core.py::prepare_llm_config`; the read of `stream` is unused). -/
def main_initialize_llm_client (mcp : McpConfig) (disk : Coders)
    (cu : Option String) : Except String (Assistant × Option String) :=
  let a := cu_get_active_coder_id disk cu
  let llm_config := (disk.lookup a.1).getD []
  match llm_config.lookup "model_name" with
  | none => Except.error "Model name is not configured. Please check your config file."
  | some mn =>
    if mn.truthy = false then
      Except.error "Model name is not configured. Please check your config file."
    else
      match prepare_llm_config llm_config with
      | Except.error e => Except.error e
      | Except.ok llm_cfg =>
        Except.ok ({ llm := llm_cfg, function_list := prepare_mcp_tools mcp }, a.2)

/-! ## `prompt_core.py` / `prompt_io.py` — display encoding and input -/

/-- Model of `prompt_core.py::prepare_display_choices`: `f"{key}: {display}"` per
pair. -/
def prepare_display_choices (values : List (String × String)) : List String :=
  values.map (fun p => p.1 ++ ": " ++ p.2)

/-- Model of `prompt_core.py::extract_key_from_display`: `""` for the empty string,
else `display_choice.split(':', 1)[0].strip()` — the part before the first
`:` (the whole string if none), stripped. -/
def extract_key_from_display (display_choice : String) : String :=
  if display_choice = "" then ""
  else pyStrip ⟨display_choice.data.takeWhile (fun c => c ≠ ':')⟩

/-- Model of `prompt_io.py::get_user_input`: `session.prompt(...)` returned the
entered line (`none` models `KeyboardInterrupt`/`EOFError`, where the
function prints a farewell and returns `None`); a returned line is
`.strip()`ed. -/
def get_user_input (entered : Option String) : Option String :=
  entered.map pyStrip

/-! ## `command_core.py` — pure command parsing -/

/-- Model of `command_core.py::is_command`: starts with the reserved `/`. -/
def is_command (input_text : String) : Bool := input_text.data.head? = some '/'

/-- Model of `command_core.py::parse_command`: `('', input_text)` when not a
command; otherwise `input_text.split(maxsplit=1)` — the first
whitespace-delimited token (the input starts with the non-whitespace `/`),
and the remainder after the first whitespace run (`""` if none). -/
def parse_command (input_text : String) : String × String :=
  if input_text.data.head? ≠ some '/' then ("", input_text)
  else
    (⟨input_text.data.takeWhile (fun c => ¬ c.isWhitespace)⟩,
     ⟨(input_text.data.dropWhile (fun c => ¬ c.isWhitespace)).dropWhile
        Char.isWhitespace⟩)

/-- Model of `command_core.py::format_command_help`: header line plus one
`"  {cmd} - {desc}"` line per registered command, joined by newlines. -/
def format_command_help (commands : List (String × String)) : String :=
  String.intercalate "\n"
    ("Available commands:" :: commands.map (fun p => "  " ++ p.1 ++ " - " ++ p.2))

/-- Model of `command_core.py::prepare_command_list`: dict items as a tuple list
(registration order). -/
def prepare_command_list (commands : List (String × String)) :
    List (String × String) := commands

/-! ## `command_handlers.py` — the registry and the built-in handlers -/

/-- External inputs a command handler can consume during one dispatch: the
MCP server config on disk, and the outcome of the interactive fuzzy
selector (`none` = user cancelled). -/
structure Externs where
  mcp : McpConfig
  sel : Option String
deriving DecidableEq, Repr

/-- The mutable state visible to the session: `config_io`'s module state,
`config_utils`' module global (`cu`), the shared context dict
(`exit_flag`, `bot`, `messages`), the printed-line trace `out`, and the
ghost count `rebuilds` of client-factory calls. -/
structure World where
  cfg : ConfigState
  cu : Option String
  exit_flag : Bool
  bot : Assistant
  messages : List Message
  out : List String
  rebuilds : Nat
deriving DecidableEq, Repr

/-- Model of `next((name for key, name in coders if key == x), x)` as used in
`command_handlers.py`. -/
def coder_name_for (coders : List (String × String)) (key : String) : String :=
  ((coders.find? (fun p => p.1 == key)).map (·.2)).getD key

/-- Model of `command_handlers.py::handle_bye_command`: sets the exit flag (the
session context always has one), prints a goodbye, returns `True`. -/
def handle_bye_command (ex : Externs) (args : String) (w : World) :
    Except String (Bool × World) :=
  Except.ok (true, { w with exit_flag := true, out := w.out ++ ["Goodbye!"] })

/-- The startup-registered command descriptions of `command_handlers.py`,
in registration order. -/
def builtin_descriptions : List (String × String) :=
  [("/bye", "アプリケーションを終了します"),
   ("/help", "利用可能なコマンドを表示します"),
   ("/list", "利用可能なプロファイルを表示して選択します")]

/-- Model of `command_handlers.py::handle_help_command`: prints the formatted help
(with literal `\n` sequences replaced), returns `True`. -/
def handle_help_command (ex : Externs) (args : String) (w : World) :
    Except String (Bool × World) :=
  Except.ok (true, { w with out := w.out ++
    [(format_command_help builtin_descriptions).replace "\\n" "\n"] })

/-- Model of `command_handlers.py::handle_list_command`: show/select a coder via the
fuzzy selector (its own prompts are external I/O and not traced here); on a
changed selection, commits it to `config_io` and rebuilds the bot through
`main.initialize_llm_client` (which consults `config_utils`' global, not
`config_io`'s).  Returns `True` on every non-raising path. -/
def handle_list_command (ex : Externs) (args : String) (w : World) :
    Except String (Bool × World) :=
  let coders := get_available_coders w.cfg
  if coders.isEmpty then
    Except.ok (true, { w with out := w.out ++ ["No coders found in config file."] })
  else
    let a := get_active_coder_id w.cfg
    let current_coder_id := a.1
    let w1 : World := { w with
      cfg := a.2,
      out := w.out ++ ["Current coder: " ++ coder_name_for coders current_coder_id] }
    match ex.sel with
    | none =>
      Except.ok (true, { w1 with out := w1.out ++ ["Coder selection cancelled."] })
    | some selected =>
      if selected ≠ current_coder_id then
        let w2 : World := { w1 with
          cfg := set_active_coder_id selected w1.cfg,
          out := w1.out ++ ["Coder changed to: " ++ coder_name_for coders selected] }
        match main_initialize_llm_client ex.mcp w2.cfg.disk w2.cu with
        | Except.error e => Except.error e
        | Except.ok r =>
          Except.ok (true, { w2 with
            bot := r.1,
            cu := r.2,
            rebuilds := w2.rebuilds + 1,
            out := w2.out ++ ["Coder changed to: " ++ coder_name_for coders selected] })
      else
        Except.ok (true, { w1 with out := w1.out ++
          ["Coder unchanged: " ++ coder_name_for coders selected] })

/-- The `_commands` registry of `command_handlers.py` after the
module-level `register_command` calls, in registration order. -/
def commandRegistry :
    List (String × (Externs → String → World → Except String (Bool × World))) :=
  [("/bye", handle_bye_command), ("/help", handle_help_command),
   ("/list", handle_list_command)]

/-- Model of `command_core.py::match_command`: `registry.get(command)`. -/
def match_command (command : String)
    (registry : List (String × (Externs → String → World → Except String (Bool × World)))) :
    Option (Externs → String → World → Except String (Bool × World)) :=
  registry.lookup command

/-- Model of `command_handlers.py::handle_command`: `False` for non-command input,
otherwise parse, look up in the registry, run the handler or print the
unknown-command notice and return `True`. -/
def handle_command (ex : Externs) (user_input : String) (w : World) :
    Except String (Bool × World) :=
  if ¬ is_command user_input then Except.ok (false, w)
  else
    let pc := parse_command user_input
    match match_command pc.1 commandRegistry with
    | some handler => handler ex pc.2 w
    | none =>
      Except.ok (true, { w with out := w.out ++ ["Unknown command: " ++ pc.1] })

/-! ## `app.py::run_application` — the session loop -/

/-- Outcome of one iteration of the main loop: continue, leave the loop
(`break`), or die on an uncaught exception. -/
inductive StepResult where
  | next (w : World)
  | halt (w : World)
  | fatal (e : String)
deriving DecidableEq, Repr

/-- The `@`-branch coder resolution of `run_application`: first `(key,
name)` in load order with `coder_input.lower() == name.lower()`. -/
def resolve_coder (coders : List (String × String)) (coder_input : String) :
    Option String :=
  (coders.find? (fun p => pyLower coder_input == pyLower p.2)).map (·.1)

/-- One iteration of the `while not context['exit_flag']` body of
`app.py::run_application`, for an entered line (`none` = cancellation):
re-resolve the active id, strip the input, then route it to the `@`-switch
branch, the legacy `quit`/`exit` words, command dispatch, or a chat turn
over the `stream` of `bot.run` snapshots.  The `@`-branch guard is
Python's `if selected_key:` — truthiness, so both no match (`None`) and a
resolved empty-string id take the unknown-coder branch. -/
def loop_step (ex : Externs) (coders : List (String × String))
    (stream : List Snapshot) (entered : Option String) (w : World) : StepResult :=
  let a := get_active_coder_id w.cfg
  let current_coder_id := a.1
  let w : World := { w with cfg := a.2 }
  match get_user_input entered with
  | none => StepResult.halt w
  | some user_input =>
    if user_input = "" then StepResult.next w
    else if user_input.data.head? = some '@' then
      let coder_input := pyStrip ⟨user_input.data.drop 1⟩
      match resolve_coder coders coder_input with
      | some selected_key =>
        if selected_key = "" then
          StepResult.next { w with out := w.out ++ ["Unknown coder: " ++ coder_input] }
        else if selected_key ≠ current_coder_id then
          let w1 : World := { w with
            cfg := set_active_coder_id selected_key w.cfg,
            out := w.out ++ ["Changing coder to: " ++ coder_input ++ "..."] }
          match initialize_llm_client ex.mcp w1.cfg with
          | Except.error e => StepResult.fatal e
          | Except.ok r =>
            StepResult.next { w1 with
              cfg := r.2,
              bot := r.1,
              rebuilds := w1.rebuilds + 1,
              out := w1.out ++ ["Coder changed to: " ++ coder_input] }
        else
          StepResult.next { w with out := w.out ++ ["Already using coder: " ++ coder_input] }
      | none =>
        StepResult.next { w with out := w.out ++ ["Unknown coder: " ++ coder_input] }
    else if pyLower user_input = "quit" ∨ pyLower user_input = "exit" then
      StepResult.halt w
    else
      match handle_command ex user_input w with
      | Except.error e => StepResult.fatal e
      | Except.ok (true, w1) => StepResult.next w1
      | Except.ok (false, w1) =>
        let msgs := w1.messages ++ [{ role := Role.user, content := user_input }]
        let chunks := run_llm stream
        let response_text := chunks.foldl (· ++ ·) ""
        StepResult.next { w1 with
          messages :=
            if response_text ≠ "" then
              msgs ++ [{ role := Role.assistant, content := response_text }]
            else msgs,
          out := w1.out ++ chunks }

/-- The startup of `app.py::run_application` before the loop: build the
initial client (a configuration error propagates fatally), with empty
history and a cleared exit flag. -/
def run_application_startup (ex : Externs) (cfg0 : ConfigState)
    (cu0 : Option String) : Except String World :=
  match initialize_llm_client ex.mcp cfg0 with
  | Except.error e => Except.error e
  | Except.ok r =>
    Except.ok { cfg := r.2, cu := cu0, exit_flag := false, bot := r.1,
                messages := [], out := [], rebuilds := 1 }

/-! ## Helper lemmas about the loop step -/

theorem get_user_input_some (u : String) :
    get_user_input (some u) = some (pyStrip u) := rfl

theorem loop_step_chat (ex : Externs) (coders : List (String × String))
    (stream : List Snapshot) (u : String) (w : World)
    (hs : pyStrip u = u) (hne : u ≠ "")
    (hat : u.data.head? ≠ some '@')
    (hq : pyLower u ≠ "quit") (hx : pyLower u ≠ "exit")
    (hsl : u.data.head? ≠ some '/') :
    loop_step ex coders stream (some u) w =
      StepResult.next
        { { w with cfg := (get_active_coder_id w.cfg).2 } with
          messages :=
            (if (run_llm stream).foldl (· ++ ·) "" ≠ "" then
              w.messages ++ [{ role := Role.user, content := u },
                { role := Role.assistant, content := (run_llm stream).foldl (· ++ ·) "" }]
            else w.messages ++ [{ role := Role.user, content := u }]),
          out := w.out ++ run_llm stream } := by
  unfold loop_step
  rw [get_user_input_some, hs]
  simp only [if_neg hne, if_neg hat]
  rw [if_neg (by push_neg; exact ⟨hq, hx⟩)]
  have hcmd : handle_command ex u { w with cfg := (get_active_coder_id w.cfg).2 } =
      Except.ok (false, { w with cfg := (get_active_coder_id w.cfg).2 }) := by
    unfold handle_command is_command
    rw [if_pos]
    simp [hsl]
  rw [hcmd]
  by_cases hr : (run_llm stream).foldl (· ++ ·) "" = "" <;> simp [hr]

theorem ne_empty_of_head (u : String) (c : Char) (h : u.data.head? = some c) :
    u ≠ "" := by
  intro he
  subst he
  simp at h

theorem loop_step_at_unknown (ex : Externs) (coders : List (String × String))
    (stream : List Snapshot) (u : String) (w : World)
    (hs : pyStrip u = u) (hat : u.data.head? = some '@')
    (hres : resolve_coder coders (pyStrip ⟨u.data.drop 1⟩) = none) :
    loop_step ex coders stream (some u) w =
      StepResult.next { w with
        cfg := (get_active_coder_id w.cfg).2,
        out := w.out ++ ["Unknown coder: " ++ pyStrip ⟨u.data.drop 1⟩] } := by
  unfold loop_step
  rw [get_user_input_some, hs]
  simp only [if_neg (ne_empty_of_head u '@' hat), if_pos hat, hres]

theorem loop_step_at_empty_key (ex : Externs) (coders : List (String × String))
    (stream : List Snapshot) (u : String) (w : World)
    (hs : pyStrip u = u) (hat : u.data.head? = some '@')
    (hres : resolve_coder coders (pyStrip ⟨u.data.drop 1⟩) = some "") :
    loop_step ex coders stream (some u) w =
      StepResult.next { w with
        cfg := (get_active_coder_id w.cfg).2,
        out := w.out ++ ["Unknown coder: " ++ pyStrip ⟨u.data.drop 1⟩] } := by
  unfold loop_step
  rw [get_user_input_some, hs]
  simp only [if_neg (ne_empty_of_head u '@' hat), if_pos hat, hres, if_pos rfl]
  simp

theorem loop_step_at_same (ex : Externs) (coders : List (String × String))
    (stream : List Snapshot) (u : String) (w : World)
    (hs : pyStrip u = u) (hat : u.data.head? = some '@')
    (hres : resolve_coder coders (pyStrip ⟨u.data.drop 1⟩) =
      some (get_active_coder_id w.cfg).1)
    (hcur : (get_active_coder_id w.cfg).1 ≠ "") :
    loop_step ex coders stream (some u) w =
      StepResult.next { w with
        cfg := (get_active_coder_id w.cfg).2,
        out := w.out ++ ["Already using coder: " ++ pyStrip ⟨u.data.drop 1⟩] } := by
  unfold loop_step
  rw [get_user_input_some, hs]
  simp only [if_neg (ne_empty_of_head u '@' hat), if_pos hat, hres, if_neg hcur]
  simp

theorem loop_step_at_diff (ex : Externs) (coders : List (String × String))
    (stream : List Snapshot) (u : String) (w : World) (k : String)
    (hs : pyStrip u = u) (hat : u.data.head? = some '@')
    (hres : resolve_coder coders (pyStrip ⟨u.data.drop 1⟩) = some k)
    (hk0 : k ≠ "") (hk : k ≠ (get_active_coder_id w.cfg).1) :
    loop_step ex coders stream (some u) w =
      (match initialize_llm_client ex.mcp
          (set_active_coder_id k (get_active_coder_id w.cfg).2) with
        | Except.error e => StepResult.fatal e
        | Except.ok r =>
          StepResult.next
            { cfg := r.2, cu := w.cu, exit_flag := w.exit_flag, bot := r.1,
              messages := w.messages,
              out := (w.out ++ ["Changing coder to: " ++ pyStrip ⟨u.data.drop 1⟩ ++ "..."])
                ++ ["Coder changed to: " ++ pyStrip ⟨u.data.drop 1⟩],
              rebuilds := w.rebuilds + 1 }) := by
  unfold loop_step
  rw [get_user_input_some, hs]
  simp only [if_neg (ne_empty_of_head u '@' hat), if_pos hat, hres, if_neg hk0, if_pos hk]

/-! ## Concrete demonstration data for witnesses -/

/-- A two-profile `coders.toml` used by the witness theorems. -/
def demoDisk : Coders :=
  [("a1", [("model_name", CVal.str "m1"), ("name", CVal.str "Alpha")]),
   ("a2", [("model_name", CVal.str "m2"), ("name", CVal.str "Beta")])]

/-- The `(id, display name)` list loaded from `demoDisk` at startup. -/
def demoCoders : List (String × String) := extract_available_coders demoDisk

/-- A client handle for the witness worlds. -/
def demoBot : Assistant :=
  { llm := { model := CVal.str "m2",
             model_server := CVal.str "http://localhost:11434/v1",
             api_key := CVal.str "EMPTY", system := none, template := none,
             options := [] },
    function_list := [] }

/-- External inputs with no MCP config and a cancelled selector. -/
def demoEx : Externs := { mcp := [], sel := none }

/-- A session state with active profile `a2` and empty history. -/
def demoWorld : World :=
  { cfg := { currentCoderId := some "a2", disk := demoDisk }, cu := none,
    exit_flag := false, bot := demoBot, messages := [], out := [], rebuilds := 1 }

/-- C1: for every history `H` and every non-empty user input `M` that
reaches a chat turn (not an `@`-switch, not `quit`/`exit`, not a
`/`-command), if consuming the streamer's lazy sequence yields a non-empty
accumulated text `R`, then after the turn the history equals
`H ++ [user: M, assistant: R]`, and `R` equals the concatenation, in yield
order, of all fragments produced by the streamer. -/
theorem chat_turn_appends_user_then_assistant
    (ex : Externs) (coders : List (String × String)) (stream : List Snapshot)
    (u : String) (w : World)
    (hs : pyStrip u = u) (hne : u ≠ "")
    (hat : u.data.head? ≠ some '@') (hq : pyLower u ≠ "quit")
    (hx : pyLower u ≠ "exit") (hsl : u.data.head? ≠ some '/')
    (hr : (run_llm stream).foldl (· ++ ·) "" ≠ "") :
    ∃ w', loop_step ex coders stream (some u) w = StepResult.next w' ∧
      w'.messages = w.messages ++
        [{ role := Role.user, content := u },
         { role := Role.assistant, content := (run_llm stream).foldl (· ++ ·) "" }] ∧
      (run_llm stream).foldl (· ++ ·) "" = String.join (run_llm stream) := by
  refine ⟨_, loop_step_chat ex coders stream u w hs hne hat hq hx hsl, ?_, rfl⟩
  simp [if_pos hr]

/-- C1 witness: a concrete chat turn (`"hello"`, two streamed deltas)
appends the user message and the accumulated assistant message. -/
theorem chat_turn_appends_user_then_assistant_witness :
    ∃ w', loop_step demoEx demoCoders
        [[{ role := Role.assistant, content := "Hel" }],
         [{ role := Role.assistant, content := "Hello" }]]
        (some "hello") demoWorld = StepResult.next w' ∧
      w'.messages = demoWorld.messages ++
        [{ role := Role.user, content := "hello" },
         { role := Role.assistant,
           content := (run_llm [[{ role := Role.assistant, content := "Hel" }],
             [{ role := Role.assistant, content := "Hello" }]]).foldl (· ++ ·) "" }] ∧
      (run_llm [[{ role := Role.assistant, content := "Hel" }],
        [{ role := Role.assistant, content := "Hello" }]]).foldl (· ++ ·) "" =
      String.join (run_llm [[{ role := Role.assistant, content := "Hel" }],
        [{ role := Role.assistant, content := "Hello" }]]) :=
  chat_turn_appends_user_then_assistant demoEx demoCoders _ "hello" demoWorld
    (by decide) (by decide) (by decide) (by decide) (by decide) (by decide) (by decide)

/-- C2: for every history `H` and user input `M` that reaches a chat turn,
if the streamed sequence yields no fragments (the accumulated response
text is empty), the history after the turn is exactly `H ++ [user: M]` —
no assistant message is appended — and the loop continues normally
(`StepResult.next`). -/
theorem chat_turn_empty_stream_appends_user_only
    (ex : Externs) (coders : List (String × String)) (stream : List Snapshot)
    (u : String) (w : World)
    (hs : pyStrip u = u) (hne : u ≠ "")
    (hat : u.data.head? ≠ some '@') (hq : pyLower u ≠ "quit")
    (hx : pyLower u ≠ "exit") (hsl : u.data.head? ≠ some '/')
    (hr : (run_llm stream).foldl (· ++ ·) "" = "") :
    ∃ w', loop_step ex coders stream (some u) w = StepResult.next w' ∧
      w'.messages = w.messages ++ [{ role := Role.user, content := u }] := by
  refine ⟨_, loop_step_chat ex coders stream u w hs hne hat hq hx hsl, ?_⟩
  simp [hr]

/-- C2 witness: a concrete chat turn with an empty streamed sequence
records only the user message and continues. -/
theorem chat_turn_empty_stream_appends_user_only_witness :
    ∃ w', loop_step demoEx demoCoders [] (some "hello") demoWorld =
        StepResult.next w' ∧
      w'.messages = demoWorld.messages ++ [{ role := Role.user, content := "hello" }] :=
  chat_turn_empty_stream_appends_user_only demoEx demoCoders [] "hello" demoWorld
    (by decide) (by decide) (by decide) (by decide) (by decide) (by decide) (by decide)

/-- C10: every non-cancelled value returned by `get_user_input` is the
entered line stripped of surrounding whitespace (and is itself
strip-stable); the loop routes an entered line exactly as it routes its
stripped form, and a chat turn records the stripped input as the user
message. -/
theorem get_user_input_strips_and_routing_agrees
    (ex : Externs) (coders : List (String × String)) (stream : List Snapshot)
    (raw : String) (w : World) :
    get_user_input (some raw) = some (pyStrip raw) ∧
    pyStrip (pyStrip raw) = pyStrip raw ∧
    loop_step ex coders stream (some raw) w =
      loop_step ex coders stream (some (pyStrip raw)) w ∧
    (pyStrip raw ≠ "" → (pyStrip raw).data.head? ≠ some '@' →
      pyLower (pyStrip raw) ≠ "quit" → pyLower (pyStrip raw) ≠ "exit" →
      (pyStrip raw).data.head? ≠ some '/' →
      ∃ w' rest, loop_step ex coders stream (some raw) w = StepResult.next w' ∧
        w'.messages = w.messages ++
          ({ role := Role.user, content := pyStrip raw } :: rest)) := by
  have hroute : loop_step ex coders stream (some raw) w =
      loop_step ex coders stream (some (pyStrip raw)) w := by
    unfold loop_step
    rw [get_user_input_some, get_user_input_some, pyStrip_idem]
  refine ⟨rfl, pyStrip_idem raw, hroute, ?_⟩
  intro h1 h2 h3 h4 h5
  rw [hroute, loop_step_chat ex coders stream (pyStrip raw) w (pyStrip_idem raw) h1 h2 h3 h4 h5]
  by_cases hr : (run_llm stream).foldl (· ++ ·) "" = ""
  · exact ⟨_, [], rfl, by simp [hr]⟩
  · exact ⟨_, [{ role := Role.assistant, content := (run_llm stream).foldl (· ++ ·) "" }],
      rfl, by simp [hr]⟩

/-- C10 witness: `"  hello  "` is returned as `"hello"` and the chat turn
records the stripped message. -/
theorem get_user_input_strips_and_routing_agrees_witness :
    get_user_input (some "  hello  ") = some "hello" ∧
    (∃ w' rest, loop_step demoEx demoCoders [] (some "  hello  ") demoWorld =
        StepResult.next w' ∧
      w'.messages = demoWorld.messages ++
        ({ role := Role.user, content := pyStrip "  hello  " } :: rest)) := by
  constructor
  · have h := (get_user_input_strips_and_routing_agrees demoEx demoCoders []
      "  hello  " demoWorld).1
    rw [h]
    decide
  · exact (get_user_input_strips_and_routing_agrees demoEx demoCoders []
      "  hello  " demoWorld).2.2.2 (by decide) (by decide) (by decide) (by decide) (by decide)

theorem get_active_coder_id_of_some (s : ConfigState) (id : String)
    (h : s.currentCoderId = some id) : get_active_coder_id s = (id, s) := by
  unfold get_active_coder_id
  rw [h]

theorem get_active_coder_id_idem (s : ConfigState) :
    get_active_coder_id (get_active_coder_id s).2 =
      ((get_active_coder_id s).1, (get_active_coder_id s).2) := by
  cases h : s.currentCoderId with
  | some id =>
    rw [get_active_coder_id_of_some s id h]
    exact get_active_coder_id_of_some s id h
  | none =>
    unfold get_active_coder_id
    rw [h]
    by_cases hd : (load_coders s).isEmpty
    · simp [hd, h]
    · simp [hd]

theorem initialize_cfg_of_some (mcp : McpConfig) (s : ConfigState) (id : String)
    (h : s.currentCoderId = some id) (r : Assistant × ConfigState)
    (hr : initialize_llm_client mcp s = Except.ok r) : r.2 = s := by
  unfold initialize_llm_client get_llm_config at hr
  rw [get_active_coder_id_of_some s id h] at hr
  dsimp only at hr
  split at hr
  · cases hr
  · split at hr
    · cases hr
    · split at hr
      · cases hr
      · cases hr
        rfl

/-- C3 (as amended): an `@`-input is resolved by stripping the `@`,
trimming, and case-insensitively matching the profile display names in
load order (first match wins — this is `resolve_coder`); when the
resolved id is non-empty (Python's `if selected_key:` truthiness) and
differs from the current active id, exactly one client-rebuild call
occurs, the active profile id becomes the resolved id and the new client
is installed; and no `@`-input ever produces a chat turn or a command
dispatch (history and exit flag are untouched on every non-fatal path,
the only fatal path being the propagating rebuild error).  The claim
without the non-emptiness proviso is refuted by
the counterexample below at a first-matching profile with id `""`. -/
theorem at_switch_resolves_and_rebuilds_once
    (ex : Externs) (coders : List (String × String)) (stream : List Snapshot)
    (u : String) (w : World)
    (hs : pyStrip u = u) (hat : u.data.head? = some '@') :
    (∀ k r, resolve_coder coders (pyStrip ⟨u.data.drop 1⟩) = some k →
      k ≠ "" →
      k ≠ (get_active_coder_id w.cfg).1 →
      initialize_llm_client ex.mcp
        (set_active_coder_id k (get_active_coder_id w.cfg).2) = Except.ok r →
      ∃ w', loop_step ex coders stream (some u) w = StepResult.next w' ∧
        w'.rebuilds = w.rebuilds + 1 ∧
        w'.cfg.currentCoderId = some k ∧
        w'.bot = r.1 ∧ w'.messages = w.messages) ∧
    ((∃ w', loop_step ex coders stream (some u) w = StepResult.next w' ∧
        w'.messages = w.messages ∧ w'.exit_flag = w.exit_flag) ∨
      (∃ e, loop_step ex coders stream (some u) w = StepResult.fatal e)) := by
  constructor
  · intro k r hres hk0 hk hok
    rw [loop_step_at_diff ex coders stream u w k hs hat hres hk0 hk, hok]
    refine ⟨_, rfl, rfl, ?_, rfl, rfl⟩
    have h2 : r.2 = set_active_coder_id k (get_active_coder_id w.cfg).2 :=
      initialize_cfg_of_some ex.mcp _ k rfl r hok
    rw [h2]
    rfl
  · cases hres : resolve_coder coders (pyStrip ⟨u.data.drop 1⟩) with
    | none =>
      exact Or.inl ⟨_, loop_step_at_unknown ex coders stream u w hs hat hres, rfl, rfl⟩
    | some k =>
      by_cases hk0 : k = ""
      · subst hk0
        exact Or.inl ⟨_, loop_step_at_empty_key ex coders stream u w hs hat hres, rfl, rfl⟩
      · by_cases hk : k = (get_active_coder_id w.cfg).1
        · subst hk
          exact Or.inl ⟨_, loop_step_at_same ex coders stream u w hs hat hres hk0, rfl, rfl⟩
        · rw [loop_step_at_diff ex coders stream u w k hs hat hres hk0 hk]
          cases hinit : initialize_llm_client ex.mcp
              (set_active_coder_id k (get_active_coder_id w.cfg).2) with
          | error e => exact Or.inr ⟨e, rfl⟩
          | ok r => exact Or.inl ⟨_, rfl, rfl, rfl⟩

/-- The client the factory builds for profile `a1` of `demoDisk`. -/
def demoBotA1 : Assistant :=
  { llm := { model := CVal.str "m1",
             model_server := CVal.str "http://localhost:11434/v1",
             api_key := CVal.str "EMPTY", system := none, template := none,
             options := [] },
    function_list := [] }

/-- C3 witness: `"@Alpha"` with active profile `a2` switches to `a1`,
with exactly one rebuild. -/
theorem at_switch_resolves_and_rebuilds_once_witness :
    ∃ w', loop_step demoEx demoCoders [] (some "@Alpha") demoWorld =
        StepResult.next w' ∧
      w'.rebuilds = demoWorld.rebuilds + 1 ∧
      w'.cfg.currentCoderId = some "a1" ∧
      w'.bot = demoBotA1 ∧
      w'.messages = demoWorld.messages :=
  (at_switch_resolves_and_rebuilds_once demoEx demoCoders [] "@Alpha" demoWorld
      (by decide) (by decide)).1 "a1"
    (demoBotA1, { currentCoderId := some "a1", disk := demoDisk })
    (by decide) (by decide) (by decide) rfl

/-- A config whose first profile has the empty-string id (TOML permits an
empty quoted key) and display name `Alpha`. -/
def emptyIdDisk : Coders :=
  [("", [("model_name", CVal.str "m0"), ("name", CVal.str "Alpha")]),
   ("a2", [("model_name", CVal.str "m2"), ("name", CVal.str "Beta")])]

/-- The profile list loaded from `emptyIdDisk`. -/
def emptyIdCoders : List (String × String) := extract_available_coders emptyIdDisk

/-- A session on `emptyIdDisk` with active profile `a2`. -/
def emptyIdWorld : World :=
  { cfg := { currentCoderId := some "a2", disk := emptyIdDisk }, cu := none,
    exit_flag := false, bot := demoBot, messages := [], out := [], rebuilds := 1 }

/-- C3 counterexample: `"@Alpha"` resolves (first match in load order) to
the empty-string id, which differs from the current active id `a2`, yet
the program prints the unknown-coder notice and performs no rebuild and
no active-id update — Python's `if selected_key:` treats `""` as falsy,
so the claim as stated fails here. -/
theorem at_switch_resolves_and_rebuilds_once_counterexample :
    resolve_coder emptyIdCoders (pyStrip ⟨"@Alpha".data.drop 1⟩) = some "" ∧
    "" ≠ (get_active_coder_id emptyIdWorld.cfg).1 ∧
    loop_step demoEx emptyIdCoders [] (some "@Alpha") emptyIdWorld =
      StepResult.next { emptyIdWorld with
        out := emptyIdWorld.out ++
          ["Unknown coder: " ++ pyStrip ⟨"@Alpha".data.drop 1⟩] } ∧
    ({ emptyIdWorld with
        out := emptyIdWorld.out ++
          ["Unknown coder: " ++ pyStrip ⟨"@Alpha".data.drop 1⟩] } : World).rebuilds =
      emptyIdWorld.rebuilds ∧
    ({ emptyIdWorld with
        out := emptyIdWorld.out ++
          ["Unknown coder: " ++ pyStrip ⟨"@Alpha".data.drop 1⟩] } : World).cfg.currentCoderId =
      some "a2" := by
  refine ⟨by decide, by decide, ?_, rfl, rfl⟩
  decide

/-- C7: an `@`-input whose resolved profile id equals the current active
id changes nothing: no rebuild call, the active id (as read back), the
client handle and the history are unchanged, and exactly one notice is
printed — the "already using" notice whenever the shared id is non-empty,
and the "unknown coder" notice in the degenerate empty-id case (Python's
`if selected_key:` treats `""` as falsy). -/
theorem at_switch_same_profile_is_noop
    (ex : Externs) (coders : List (String × String)) (stream : List Snapshot)
    (u : String) (w : World)
    (hs : pyStrip u = u) (hat : u.data.head? = some '@')
    (hres : resolve_coder coders (pyStrip ⟨u.data.drop 1⟩) =
      some (get_active_coder_id w.cfg).1) :
    ∃ w', loop_step ex coders stream (some u) w = StepResult.next w' ∧
      w'.rebuilds = w.rebuilds ∧
      (get_active_coder_id w'.cfg).1 = (get_active_coder_id w.cfg).1 ∧
      w'.bot = w.bot ∧
      w'.messages = w.messages ∧
      w'.out = w.out ++
        [(if (get_active_coder_id w.cfg).1 = "" then "Unknown coder: "
          else "Already using coder: ") ++ pyStrip ⟨u.data.drop 1⟩] := by
  by_cases hcur : (get_active_coder_id w.cfg).1 = ""
  · rw [hcur] at hres
    refine ⟨_, loop_step_at_empty_key ex coders stream u w hs hat hres,
      rfl, ?_, rfl, rfl, ?_⟩
    · exact congrArg Prod.fst (get_active_coder_id_idem w.cfg)
    · rw [if_pos hcur]
  · refine ⟨_, loop_step_at_same ex coders stream u w hs hat hres hcur,
      rfl, ?_, rfl, rfl, ?_⟩
    · exact congrArg Prod.fst (get_active_coder_id_idem w.cfg)
    · rw [if_neg hcur]

/-- C7 witness: `"@Beta"` while `a2` (display name `Beta`) is active is a
pure no-op with a notice. -/
theorem at_switch_same_profile_is_noop_witness :
    ∃ w', loop_step demoEx demoCoders [] (some "@Beta") demoWorld =
        StepResult.next w' ∧
      w'.rebuilds = demoWorld.rebuilds ∧
      (get_active_coder_id w'.cfg).1 = (get_active_coder_id demoWorld.cfg).1 ∧
      w'.bot = demoWorld.bot ∧
      w'.messages = demoWorld.messages ∧
      w'.out = demoWorld.out ++
        [(if (get_active_coder_id demoWorld.cfg).1 = "" then "Unknown coder: "
          else "Already using coder: ") ++ pyStrip ⟨"@Beta".data.drop 1⟩] :=
  at_switch_same_profile_is_noop demoEx demoCoders [] "@Beta" demoWorld
    (by decide) (by decide) (by decide)

theorem match_command_eq (c : String) :
    match_command c commandRegistry =
      if c = "/bye" then some handle_bye_command
      else if c = "/help" then some handle_help_command
      else if c = "/list" then some handle_list_command
      else none := by
  unfold match_command commandRegistry
  by_cases h1 : c = "/bye"
  · subst h1; simp [List.lookup]
  · rw [if_neg h1]
    by_cases h2 : c = "/help"
    · subst h2; simp [List.lookup]
    · rw [if_neg h2]
      by_cases h3 : c = "/list"
      · subst h3; simp [List.lookup]
      · rw [if_neg h3]
        simp [List.lookup, beq_eq_false_iff_ne.mpr h1,
          beq_eq_false_iff_ne.mpr h2, beq_eq_false_iff_ne.mpr h3]

theorem handle_list_command_handled (ex : Externs) (args : String) (w : World)
    (b : Bool) (w' : World)
    (h : handle_list_command ex args w = Except.ok (b, w')) : b = true := by
  unfold handle_list_command at h
  dsimp only at h
  split at h
  · cases h; rfl
  · split at h
    · cases h; rfl
    · split at h
      · split at h
        · cases h
        · cases h; rfl
      · cases h; rfl

/-- C4: `handle_command` returns `False` with an untouched state exactly
when the input does not begin with `/`; for a `/`-input whose command name
(the part before the first whitespace run) is not registered, it prints
the unknown-command notice and returns `True`, leaving the history (and
everything else but the output trace) unchanged. -/
theorem handle_command_consumes_iff
    (ex : Externs) (u : String) (w : World) :
    (u.data.head? ≠ some '/' → handle_command ex u w = Except.ok (false, w)) ∧
    (u.data.head? = some '/' →
      (∀ w', handle_command ex u w ≠ Except.ok (false, w')) ∧
      ((parse_command u).1 ∉ ["/bye", "/help", "/list"] →
        handle_command ex u w = Except.ok (true,
          { w with out := w.out ++ ["Unknown command: " ++ (parse_command u).1] }))) := by
  constructor
  · intro h
    have hic : is_command u = false := by simp [is_command, h]
    simp [handle_command, hic]
  · intro h
    have hic : is_command u = true := by simp [is_command, h]
    have hbody : handle_command ex u w =
        match match_command (parse_command u).1 commandRegistry with
        | some handler => handler ex (parse_command u).2 w
        | none => Except.ok (true,
            { w with out := w.out ++ ["Unknown command: " ++ (parse_command u).1] }) := by
      rw [handle_command, if_neg (by simp [hic])]
    constructor
    · intro w' hc
      rw [hbody, match_command_eq] at hc
      by_cases h1 : (parse_command u).1 = "/bye"
      · simp [h1, handle_bye_command] at hc
      · by_cases h2 : (parse_command u).1 = "/help"
        · simp [h1, h2, handle_help_command] at hc
        · by_cases h3 : (parse_command u).1 = "/list"
          · rw [if_neg h1, if_neg h2, if_pos h3] at hc
            exact absurd (handle_list_command_handled ex _ _ false w' hc) (by simp)
          · simp [h1, h2, h3] at hc
    · intro hn
      simp only [List.mem_cons, List.not_mem_nil, or_false, not_or] at hn
      rw [hbody, match_command_eq, if_neg hn.1, if_neg hn.2.1, if_neg hn.2.2]

/-- C4 witness: `"hello"` is not consumed and the state is untouched;
`"/xyzzy"` is consumed with the unknown-command notice and unchanged
history. -/
theorem handle_command_consumes_iff_witness :
    handle_command demoEx "hello" demoWorld = Except.ok (false, demoWorld) ∧
    handle_command demoEx "/xyzzy" demoWorld = Except.ok (true,
      { demoWorld with
        out := demoWorld.out ++ ["Unknown command: " ++ (parse_command "/xyzzy").1] }) :=
  ⟨(handle_command_consumes_iff demoEx "hello" demoWorld).1 (by decide),
   ((handle_command_consumes_iff demoEx "/xyzzy" demoWorld).2 (by decide)).2 (by decide)⟩

/-- C8: with no prior explicit selection, the first read of the active
profile id yields the first profile id in load order (or `""` with no
profiles); after `set_active_coder_id x`, every read from a state whose
memo holds `x` returns `x` and leaves the state unchanged; and neither
accessor ever writes the active id back to disk. -/
theorem active_coder_id_lifecycle (s : ConfigState) (x : String) :
    (s.currentCoderId = none →
      (get_active_coder_id s).1 =
        (match s.disk.head? with
         | some p => p.1
         | none => "")) ∧
    get_active_coder_id (set_active_coder_id x s) = (x, set_active_coder_id x s) ∧
    (∀ s', s'.currentCoderId = some x → get_active_coder_id s' = (x, s')) ∧
    (set_active_coder_id x s).disk = s.disk ∧
    (get_active_coder_id s).2.disk = s.disk := by
  refine ⟨?_, get_active_coder_id_of_some _ x rfl,
    fun s' h => get_active_coder_id_of_some s' x h, rfl, ?_⟩
  · intro h
    unfold get_active_coder_id
    rw [h]
    cases hd : s.disk with
    | nil => simp [load_coders, hd]
    | cons p t => simp [load_coders, hd, find_default_coder_id]
  · cases h : s.currentCoderId with
    | some id => rw [get_active_coder_id_of_some s id h]
    | none =>
      unfold get_active_coder_id
      rw [h]
      by_cases hd : (load_coders s).isEmpty
      · simp [hd]
      · simp [hd]

/-- C8 witness: on `demoDisk` with no prior selection the first read is
`a1`; after selecting `a2` the read returns `a2` unchanged. -/
theorem active_coder_id_lifecycle_witness :
    (get_active_coder_id { currentCoderId := none, disk := demoDisk }).1 =
      (match demoDisk.head? with
       | some p => p.1
       | none => "") ∧
    get_active_coder_id
        (set_active_coder_id "a2" { currentCoderId := none, disk := demoDisk }) =
      ("a2", set_active_coder_id "a2" { currentCoderId := none, disk := demoDisk }) :=
  ⟨(active_coder_id_lifecycle { currentCoderId := none, disk := demoDisk } "a2").1 rfl,
   (active_coder_id_lifecycle { currentCoderId := none, disk := demoDisk } "a2").2.1⟩

theorem prepare_llm_config_ok_of_truthy (cfg : CoderConfig) (v : CVal)
    (hl : cfg.lookup "model_name" = some v) (hv : v.truthy = true) :
    ∃ c, prepare_llm_config cfg = Except.ok c := by
  unfold prepare_llm_config
  rw [hl]
  dsimp only
  rw [if_neg (by rw [hv]; simp)]
  exact ⟨_, rfl⟩

/-- C5: `initialize_llm_client` raises a configuration error exactly when
the active profile's configuration has no model identifier — `model_name`
absent or empty (the value of `model_name`, when present, is a string, as
a model identifier is) — and the error is never caught: it propagates
fatally at startup (`run_application_startup`) and at a
profile-switch-triggered reconstruction in the loop (which the `@`-branch
triggers for a non-empty resolved id differing from the current one), and
is never replaced by a silent default. -/
theorem initialize_config_error_iff (ex : Externs) (s : ConfigState)
    (cu0 : Option String) :
    ((∀ v, (get_llm_config s).1.lookup "model_name" = some v → ∃ t, v = CVal.str t) →
      ((∃ e, initialize_llm_client ex.mcp s = Except.error e) ↔
        ((get_llm_config s).1.lookup "model_name" = none ∨
         (get_llm_config s).1.lookup "model_name" = some (CVal.str "")))) ∧
    (∀ e, initialize_llm_client ex.mcp s = Except.error e →
      run_application_startup ex s cu0 = Except.error e) ∧
    (∀ coders stream u w k e, pyStrip u = u → u.data.head? = some '@' →
      resolve_coder coders (pyStrip ⟨u.data.drop 1⟩) = some k →
      k ≠ "" →
      k ≠ (get_active_coder_id w.cfg).1 →
      initialize_llm_client ex.mcp
        (set_active_coder_id k (get_active_coder_id w.cfg).2) = Except.error e →
      loop_step ex coders stream (some u) w = StepResult.fatal e) := by
  refine ⟨?_, ?_, ?_⟩
  · intro hstr
    have hbody : initialize_llm_client ex.mcp s =
        (match (get_llm_config s).1.lookup "model_name" with
         | none => Except.error "Model name is not configured. Please check your config file."
         | some mn =>
           if mn.truthy = false then
             Except.error "Model name is not configured. Please check your config file."
           else
             match prepare_llm_config (get_llm_config s).1 with
             | Except.error e => Except.error e
             | Except.ok llm_cfg =>
               Except.ok ({ llm := llm_cfg, function_list := prepare_mcp_tools ex.mcp },
                 (get_llm_config s).2)) := rfl
    cases hm : (get_llm_config s).1.lookup "model_name" with
    | none =>
      rw [hbody, hm]
      exact ⟨fun _ => Or.inl rfl, fun _ => ⟨_, rfl⟩⟩
    | some v =>
      obtain ⟨t, rfl⟩ := hstr v hm
      by_cases ht : t = ""
      · subst ht
        rw [hbody, hm]
        simp [CVal.truthy]
      · have htr : (CVal.str t).truthy = true := by simp [CVal.truthy, ht]
        rw [hbody, hm]
        dsimp only
        rw [if_neg (by rw [htr]; simp)]
        obtain ⟨c, hc⟩ := prepare_llm_config_ok_of_truthy _ _ hm htr
        rw [hc]
        constructor
        · rintro ⟨e, he⟩
          simp at he
        · rintro (h | h)
          · exact Option.noConfusion h
          · exact absurd (CVal.str.inj (Option.some.inj h)) ht
  · intro e he
    unfold run_application_startup
    rw [he]
  · intro coders stream u w k e hs hat hres hk0 hk herr
    rw [loop_step_at_diff ex coders stream u w k hs hat hres hk0 hk, herr]

/-- A config with a third profile `a3` (`Gamma`) lacking `model_name`. -/
def demoDisk3 : Coders := demoDisk ++ [("a3", [("name", CVal.str "Gamma")])]

/-- A session on `demoDisk3` with active profile `a2`. -/
def demoWorld3 : World :=
  { cfg := { currentCoderId := some "a2", disk := demoDisk3 }, cu := none,
    exit_flag := false, bot := demoBot, messages := [], out := [], rebuilds := 1 }

/-- C5 witness: an active profile with no section yields a configuration
error, and switching to the model-less `Gamma` profile kills the loop
fatally. -/
theorem initialize_config_error_iff_witness :
    (∃ e, initialize_llm_client demoEx.mcp
      { currentCoderId := some "missing", disk := demoDisk } = Except.error e) ∧
    loop_step demoEx (extract_available_coders demoDisk3) [] (some "@Gamma") demoWorld3 =
      StepResult.fatal "Model name is not configured. Please check your config file." := by
  constructor
  · exact ((initialize_config_error_iff demoEx
      { currentCoderId := some "missing", disk := demoDisk } none).1
      (fun v h => by cases h)).mpr (Or.inl rfl)
  · exact (initialize_config_error_iff demoEx demoWorld3.cfg none).2.2
      (extract_available_coders demoDisk3) [] "@Gamma" demoWorld3 "a3" _
      (by decide) (by decide) (by decide) (by decide) (by decide) rfl

theorem optValue_eq_some (cfg : CoderConfig) (k : String) (v : CVal) :
    optValue cfg k = some v ↔ (cfg.lookup k = some v ∧ v ≠ CVal.str "") := by
  unfold optValue
  cases hl : cfg.lookup k with
  | none => simp
  | some a =>
    by_cases ha : a = CVal.str ""
    · subst ha
      simp [CVal.neEmptyStr]
      rintro rfl
      simp
    · simp [CVal.neEmptyStr, ha]
      rintro rfl
      exact ha

/-- C6: for a profile config containing a model name, the constructed
option set contains a sampling key exactly when that key is present and
non-empty in the profile (no absent key is defaulted), while
`model_server` and `api_key` do get their fixed defaults (the local server
address and the placeholder key) when absent. -/
theorem prepare_llm_config_options_exactly_present
    (cfg : CoderConfig) (out : LlmCfg)
    (h : prepare_llm_config cfg = Except.ok out) :
    (∀ k v, (k, v) ∈ out.options ↔
      (k ∈ samplingKeys ∧ cfg.lookup k = some v ∧ v ≠ CVal.str "")) ∧
    (cfg.lookup "model_server" = none →
      out.model_server = CVal.str "http://localhost:11434/v1") ∧
    (cfg.lookup "api_key" = none → out.api_key = CVal.str "EMPTY") := by
  unfold prepare_llm_config at h
  cases hm : cfg.lookup "model_name" with
  | none =>
    rw [hm] at h
    exact Except.noConfusion h
  | some mn =>
    rw [hm] at h
    dsimp only at h
    by_cases ht : mn.truthy = false
    · rw [if_pos ht] at h
      exact Except.noConfusion h
    · rw [if_neg ht] at h
      have hout := Except.ok.inj h
      subst hout
      refine ⟨?_, ?_, ?_⟩
      · intro k v
        dsimp only
        rw [List.mem_filterMap]
        constructor
        · rintro ⟨a, ha, hfa⟩
          obtain ⟨x, hx, hxe⟩ := Option.map_eq_some'.mp hfa
          obtain ⟨rfl, rfl⟩ := Prod.ext_iff.mp hxe
          exact ⟨ha, (optValue_eq_some cfg a x).mp hx⟩
        · rintro ⟨hk, hl, hv⟩
          refine ⟨k, hk, ?_⟩
          rw [(optValue_eq_some cfg k v).mpr ⟨hl, hv⟩]
          rfl
      · intro hms
        dsimp only
        rw [hms]
        rfl
      · intro hak
        dsimp only
        rw [hak]
        rfl

/-- The config a C6 witness feeds to `prepare_llm_config`. -/
def demoSamplingConfig : CoderConfig :=
  [("model_name", CVal.str "gpt-4"), ("temperature", CVal.int 1)]

/-- What `prepare_llm_config` builds from `demoSamplingConfig`. -/
def demoPrepared : LlmCfg :=
  { model := CVal.str "gpt-4",
    model_server := CVal.str "http://localhost:11434/v1",
    api_key := CVal.str "EMPTY", system := none, template := none,
    options := [("temperature", CVal.int 1)] }

/-- C6 witness: the explicitly-present `temperature` is forwarded, the
absent `top_p` is not, and `model_server`/`api_key` get their fixed
defaults. -/
theorem prepare_llm_config_options_exactly_present_witness :
    (("temperature", CVal.int 1) ∈ demoPrepared.options) ∧
    ¬ (∃ v, ("top_p", v) ∈ demoPrepared.options) ∧
    demoPrepared.model_server = CVal.str "http://localhost:11434/v1" ∧
    demoPrepared.api_key = CVal.str "EMPTY" := by
  have h := prepare_llm_config_options_exactly_present demoSamplingConfig demoPrepared rfl
  refine ⟨(h.1 "temperature" (CVal.int 1)).mpr ⟨by decide, rfl, by decide⟩, ?_, h.2.1 rfl, h.2.2 rfl⟩
  rintro ⟨v, hv⟩
  have := ((h.1 "top_p" v).mp hv).2.1
  exact Option.noConfusion this

theorem takeWhile_ne_colon_append (l rest : List Char) (h : ':' ∉ l) :
    (l ++ ':' :: rest).takeWhile (fun c => c ≠ ':') = l := by
  induction l with
  | nil => rw [List.nil_append, List.takeWhile_cons, if_neg (by simp)]
  | cons a t ih =>
    simp only [List.mem_cons, not_or] at h
    have ha : a ≠ ':' := fun hc => h.1 hc.symm
    rw [List.cons_append, List.takeWhile_cons, if_pos (by simp [ha]), ih h.2]

/-- C9: the fuzzy selector's display encoding round-trips — for profile
ids containing no `:` and no surrounding whitespace,
`extract_key_from_display` maps each line of `prepare_display_choices`
back to the original profile id. -/
theorem display_choice_roundtrip (values : List (String × String))
    (h : ∀ p ∈ values, ':' ∉ p.1.data ∧ pyStrip p.1 = p.1) :
    (prepare_display_choices values).map extract_key_from_display =
      values.map Prod.fst := by
  induction values with
  | nil => rfl
  | cons p t ih =>
    obtain ⟨hc, hs⟩ := h p (List.mem_cons_self p t)
    have ht := fun q hq => h q (List.mem_cons_of_mem p hq)
    have hdata : (p.1 ++ ": " ++ p.2).data = p.1.data ++ ':' :: (' ' :: p.2.data) := by
      rw [String.data_append, String.data_append,
        show (": ").data = [':', ' '] from rfl, List.append_assoc]
      rfl
    have hkey : extract_key_from_display (p.1 ++ ": " ++ p.2) = p.1 := by
      unfold extract_key_from_display
      rw [if_neg ?hne]
      case hne =>
        intro he
        have := congrArg String.data he
        rw [hdata] at this
        simp at this
      rw [hdata, takeWhile_ne_colon_append p.1.data (' ' :: p.2.data) hc]
      exact hs
    have hcons : (prepare_display_choices (p :: t)).map extract_key_from_display =
        extract_key_from_display (p.1 ++ ": " ++ p.2) ::
          (prepare_display_choices t).map extract_key_from_display := rfl
    rw [hcons, hkey, ih ht, List.map_cons]

/-- C9 witness: the two demo selector lines map back to `id1` and `id2`. -/
theorem display_choice_roundtrip_witness :
    (prepare_display_choices [("id1", "Name 1"), ("id2", "Name 2")]).map
        extract_key_from_display =
      [("id1", "Name 1"), ("id2", "Name 2")].map Prod.fst :=
  display_choice_roundtrip [("id1", "Name 1"), ("id2", "Name 2")] (by decide)
